import Mathlib

/-
Shallow embedding of the wildmidi Rust binding (src/lib.rs).

The library wraps an external C synthesis engine (WildMidi_*).  The engine
itself is a black box: every engine call is recorded in a trace
(`EngineCall`), and the engine's observable responses (the init status, the
nullable track pointer, the read-output status and the bytes it deposits)
are parameters of the embedded functions.  Machine integers are modelled as
Nat/Int with explicit reductions mod 2^w where the Rust code performs a
narrowing cast (`pos as c_ushort`, `read as usize`).
-/
namespace Wildmidi

/-- Failure cases of the binding, one per `bail!` site (plus the `?` on
`CString::new`, which fails when the Rust string holds an interior NUL).
The source defines no finer-grained error type: every failure is a boxed
message string. -/
inductive Err where
  | noConfigFound
  | nulByte
  | initFailed
  | volumeRejected
  | parseFailed
  | fileNotFound
deriving DecidableEq, Repr

/-- One call across the engine ABI boundary, mirroring the extern block of
lib.rs. -/
inductive EngineCall where
  | init (cfg : String) (rate : Nat) (flags : Nat)
  | openPath (path : String)
  | openBuffer
  | masterVolume (v : Nat)
  | shutdown
  | close
  | fastSeek (pos : Nat)
  | getOutput (len : Nat)
  | getInfo
deriving DecidableEq, Repr

/-- Whether a Rust string contains an interior NUL byte, the condition under
which `CString::new` fails. -/
def hasNul (s : String) : Bool :=
  s.data.any (fun c => c == Char.ofNat 0)

/-- `Player::with_cfg(cfg, rate)` (lib.rs lines 93-104).  The body converts
`cfg` to a CString (`?`), then unconditionally calls
`WildMidi_Init(cfg, rate, 0)` and fails iff the engine reports nonzero
status.  There is no rate check anywhere in the function; `rate : u16` is
modelled as a Nat intended < 2^16.  `st` is the engine's init status;
the second component is the trace of engine calls made. -/
def with_cfg (cfg : String) (rate : Nat) (st : Int) :
    Except Err Unit × List EngineCall :=
  if hasNul cfg then (.error .nulByte, [])
  else if st = 0 then (.ok (), [.init cfg rate 0])
  else (.error .initFailed, [.init cfg rate 0])

/-- `Player::volume(volume: u8)` (lib.rs lines 107-115): forwards the byte to
`WildMidi_MasterVolume` with no validation and fails iff the engine reports
nonzero status. -/
def volume (v : Nat) (st : Int) : Except Err Unit × List EngineCall :=
  if st = 0 then (.ok (), [.masterVolume v])
  else (.error .volumeRejected, [.masterVolume v])

/-- The fixed candidate list of `Player::locate_cfg` (lib.rs lines 57-60),
in source order. -/
def cfgPaths : List String :=
  ["/etc/wildmidi/wildmidi.cfg", "/etc/wildmidi.cfg"]

/-- `Player::locate_cfg()` (lib.rs lines 56-69): iterate over the candidates
and return the first for which `Path::new(path).exists()` holds.  The
filesystem is a parameter `fs` giving the result of the existence check. -/
def locate_cfg (fs : String → Bool) : Option String :=
  cfgPaths.find? fs

/-- The existence checks `locate_cfg` performs, in order: the loop stops at
the first hit, so the checked paths are the candidates up to and including
the first existing one. -/
def checksOn (fs : String → Bool) : List String → List String
  | [] => []
  | p :: ps => if fs p then [p] else p :: checksOn fs ps

/-- The filesystem probes issued by one `locate_cfg` call. -/
def locate_cfg_checks (fs : String → Bool) : List String :=
  checksOn fs cfgPaths

/-- `Player::load_file(path)` (lib.rs lines 142-158): bail with
"File does not exist" when `Path::new(path).exists()` is false (no engine
call); then `CString::new(path)?`; then `WildMidi_Open(path)`, failing with
"Failed to open Midi file." iff the returned pointer is null.  `ptr` models
the engine's nullable handle; `.ok h` models `Ok(Midi::new(ptr))`. -/
def load_file (fs : String → Bool) (path : String) (ptr : Option Nat) :
    Except Err Nat × List EngineCall :=
  if fs path = false then (.error .fileNotFound, [])
  else if hasNul path then (.error .nulByte, [])
  else
    match ptr with
    | some h => (.ok h, [.openPath path])
    | none => (.error .parseFailed, [.openPath path])

/-- Width of `usize` on the 64-bit target. -/
def usizeSize : Nat := 2 ^ 64

/-- The Rust cast `status as usize` applied to the `c_int` returned by
`WildMidi_GetOutput`: two's-complement reinterpretation, i.e. reduction
mod 2^64. -/
def intToUsize (s : Int) : Nat := (s % (usizeSize : Int)).toNat

/-- Content of the `len`-byte buffer `vec![0; len]` after the
`WildMidi_GetOutput` call: the bytes `out` the engine deposited at the
front, the rest still zero from the allocation.  The engine never writes
past the `len`-byte capacity, hence the `take len`. -/
def playVec (len : Nat) (out : List Nat) : List Nat :=
  out.take len ++ List.replicate (len - (out.take len).length) 0

/-- `Midi::play(len)` (lib.rs lines 180-194).  The body allocates
`vec![0; len]`, hands the buffer to `WildMidi_GetOutput`, casts the returned
`c_int` status to usize as `read`, and calls `vec.resize(read, 0)` only when
`read < len` (a shrink, i.e. a take); otherwise the vector is returned
whole.  The engine response is modelled by `st` (the status) and `out` (the
bytes the engine wrote). -/
def play (len : Nat) (st : Int) (out : List Nat) : List Nat :=
  if intToUsize st < len then (playVec len out).take (intToUsize st)
  else playVec len out

/-- Width of `c_ushort`. -/
def ushortSize : Nat := 2 ^ 16

/-- The sample position actually handed to `WildMidi_FastSeek` by
`Midi::seek(pos: u32)` (lib.rs lines 199-204): the body passes
`pos as c_ushort`, a narrowing cast that keeps the low 16 bits. -/
def seekForwarded (pos : Nat) : Nat := pos % ushortSize

/-- `Midi::seek(pos)`: the engine calls made (the return value of
`WildMidi_FastSeek` is ignored, per the FIXME in the source). -/
def seek (pos : Nat) : List EngineCall := [.fastSeek (seekForwarded pos)]

/-
Client-expressibility model.

The structural claims (shutdown ordering, singleton enforcement, buffer
lifetime) quantify over the safe-Rust programs a client of this library can
write.  A client program is a list of `Act`s; `pre` states exactly the
conditions rustc imposes on each act, read off the source signatures:

- `Player::with_cfg` is a free associated function with no liveness guard,
  so constructing a Player is allowed at any time;
- `Player::load(&self, data: &[u8])` borrows the player and the buffer only
  for the duration of the call; the returned `Midi` is
  `struct Midi { ptr: *const c_void }` - it carries no lifetime parameter
  and no reference to the Player or the buffer, so after `load` returns,
  the Midi value is an independently owned value;
- consequently dropping a Player, a buffer or a Midi is allowed whenever
  the value itself is live, with no condition on the other values.

Values are named by Nat identifiers; freshness of an identifier stands for
introducing a new Rust value.  `effect` lists the engine calls each act
performs, read off the corresponding function bodies and Drop impls.
-/

/-- The live values a safe-Rust client holds at one point: Player values,
source buffers, and Midi values, plus the association recording which
buffer each buffer-loaded Midi was opened from. -/
structure ClientState where
  players : List Nat
  buffers : List Nat
  midis : List Nat
  midiBuf : List (Nat × Nat)
deriving DecidableEq, Repr

/-- The empty client state: no live values. -/
def start : ClientState := ⟨[], [], [], []⟩

/-- One step of a safe-Rust client of the binding. -/
inductive Act where
  | newPlayer (pid : Nat) (cfg : String) (rate : Nat)
  | allocBuf (bid : Nat)
  | loadBuf (pid : Nat) (mid : Nat) (bid : Nat)
  | dropBuf (bid : Nat)
  | playMidi (mid : Nat) (len : Nat)
  | dropMidi (mid : Nat)
  | dropPlayer (pid : Nat)
deriving DecidableEq, Repr

/-- What rustc requires for each act to compile: only liveness of the values
the act consumes or borrows for the duration of the call.  `Midi` holds no
lifetime tie to the Player or the buffer, so no drop is contingent on the
set of live Midis. -/
def pre (s : ClientState) : Act → Bool
  | .newPlayer pid _ _ => ! s.players.contains pid
  | .allocBuf bid => ! s.buffers.contains bid
  | .loadBuf pid mid bid =>
      s.players.contains pid && s.buffers.contains bid && ! s.midis.contains mid
  | .dropBuf bid => s.buffers.contains bid
  | .playMidi mid _ => s.midis.contains mid
  | .dropMidi mid => s.midis.contains mid
  | .dropPlayer pid => s.players.contains pid

/-- State update of each act. -/
def step (s : ClientState) : Act → ClientState
  | .newPlayer pid _ _ => { s with players := pid :: s.players }
  | .allocBuf bid => { s with buffers := bid :: s.buffers }
  | .loadBuf _ mid bid =>
      { s with midis := mid :: s.midis, midiBuf := (mid, bid) :: s.midiBuf }
  | .dropBuf bid => { s with buffers := s.buffers.erase bid }
  | .playMidi _ _ => s
  | .dropMidi mid => { s with midis := s.midis.erase mid }
  | .dropPlayer pid => { s with players := s.players.erase pid }

/-- Engine calls performed by each act, from the function bodies and the two
Drop impls: `with_cfg` calls `WildMidi_Init`, `load` calls
`WildMidi_OpenBuffer`, `play` calls `WildMidi_GetOutput`,
`Drop for Midi` calls `WildMidi_Close`, `Drop for Player` calls
`WildMidi_Shutdown`.  Allocating or dropping a plain byte buffer touches no
engine state. -/
def effect : Act → List EngineCall
  | .newPlayer _ cfg rate => [.init cfg rate 0]
  | .allocBuf _ => []
  | .loadBuf _ _ _ => [.openBuffer]
  | .dropBuf _ => []
  | .playMidi _ len => [.getOutput len]
  | .dropMidi _ => [.close]
  | .dropPlayer _ => [.shutdown]

/-- A program is expressible from state `s` when every act in turn meets the
conditions rustc imposes. -/
def exprFrom (s : ClientState) : List Act → Bool
  | [] => true
  | a :: rest => pre s a && exprFrom (step s a) rest

/-- A client program compiles (is expressible in safe Rust against this
API) when it is expressible from the empty state. -/
def expressible (prog : List Act) : Bool := exprFrom start prog

/-- The engine-call trace a client program produces. -/
def engineTrace (prog : List Act) : List EngineCall :=
  prog.foldr (fun a acc => effect a ++ acc) []

/-- Detects, along the run, an engine shutdown (a Player drop) issued while
some Midi is still open. -/
def shutdownWhileOpenFrom (s : ClientState) : List Act → Bool
  | [] => false
  | a :: rest =>
      (match a with
       | .dropPlayer _ => ! s.midis.isEmpty
       | _ => false) || shutdownWhileOpenFrom (step s a) rest

/-- A program issues the engine shutdown while a Track is open. -/
def shutdownWhileOpen (prog : List Act) : Bool :=
  shutdownWhileOpenFrom start prog

/-- Detects a second engine init (a Player construction) issued while a
Player is already live. -/
def secondInitWhileLiveFrom (s : ClientState) : List Act → Bool
  | [] => false
  | a :: rest =>
      (match a with
       | .newPlayer _ _ _ => ! s.players.isEmpty
       | _ => false) || secondInitWhileLiveFrom (step s a) rest

/-- A program invokes the engine initializer while a Player is live. -/
def secondInitWhileLive (prog : List Act) : Bool :=
  secondInitWhileLiveFrom start prog

/-- Detects a buffer drop while a Midi loaded from that buffer is still
live. -/
def bufGoneWhileMidiLiveFrom (s : ClientState) : List Act → Bool
  | [] => false
  | a :: rest =>
      (match a with
       | .dropBuf bid =>
           s.midiBuf.any (fun p => s.midis.contains p.1 && p.2 == bid)
       | _ => false) || bufGoneWhileMidiLiveFrom (step s a) rest

/-- A program drops a source buffer while a Track opened from it is live. -/
def bufGoneWhileMidiLive (prog : List Act) : Bool :=
  bufGoneWhileMidiLiveFrom start prog

/-- A client program that opens a Track from a buffer and then drops the
Player before dropping the Track. -/
def progDropPlayerFirst : List Act :=
  [.newPlayer 0 "/etc/wildmidi.cfg" 44100, .allocBuf 0, .loadBuf 0 0 0,
   .dropPlayer 0, .playMidi 0 4096, .dropMidi 0]

/-- A client program that constructs a second Player while the first is
still live. -/
def progTwoPlayers : List Act :=
  [.newPlayer 0 "/etc/wildmidi.cfg" 44100, .newPlayer 1 "/etc/wildmidi.cfg" 44100]

/-- A client program that drops the source buffer of a buffer-loaded Track
while the Track is still live, then keeps rendering from it. -/
def progDropBufFirst : List Act :=
  [.newPlayer 0 "/etc/wildmidi.cfg" 44100, .allocBuf 5, .loadBuf 0 3 5,
   .dropBuf 5, .playMidi 3 4096, .dropMidi 3, .dropPlayer 0]

/-
Theorems.
-/

/-- Claim C8 (confirmed): `locate_cfg` checks the fixed candidates in the
order `/etc/wildmidi/wildmidi.cfg` then `/etc/wildmidi.cfg` and, for every
filesystem state, returns the first candidate that exists, or `none` when
neither does; its only effects are the existence probes, which stop at the
first hit. -/
theorem locate_cfg_first_existing (fs : String → Bool) :
    locate_cfg fs =
      (if fs "/etc/wildmidi/wildmidi.cfg" then some "/etc/wildmidi/wildmidi.cfg"
       else if fs "/etc/wildmidi.cfg" then some "/etc/wildmidi.cfg"
       else none)
    ∧ locate_cfg_checks fs =
      (if fs "/etc/wildmidi/wildmidi.cfg" then ["/etc/wildmidi/wildmidi.cfg"]
       else ["/etc/wildmidi/wildmidi.cfg", "/etc/wildmidi.cfg"]) := by
  cases h1 : fs "/etc/wildmidi/wildmidi.cfg" <;>
    cases h2 : fs "/etc/wildmidi.cfg" <;>
      simp [locate_cfg, locate_cfg_checks, cfgPaths, checksOn, List.find?, h1, h2]

/-- Witness for C8: on a filesystem where only `/etc/wildmidi.cfg` exists,
`locate_cfg` returns it after probing both candidates. -/
theorem locate_cfg_first_existing_witness :
    locate_cfg (fun p => p == "/etc/wildmidi.cfg") = some "/etc/wildmidi.cfg"
    ∧ locate_cfg_checks (fun p => p == "/etc/wildmidi.cfg") =
        ["/etc/wildmidi/wildmidi.cfg", "/etc/wildmidi.cfg"] := by
  have h := locate_cfg_first_existing (fun p => p == "/etc/wildmidi.cfg")
  refine ⟨?_, ?_⟩
  · rw [h.1]; decide
  · rw [h.2]; decide

/-- Claim C10 (confirmed): `volume` accepts every u8 value 0..=255,
forwards it to the engine unvalidated (the trace records the exact value),
returns `Ok` exactly when the engine reports zero status and errs exactly
when the status is nonzero. -/
theorem volume_forwards_unvalidated (v : Nat) (st : Int) (_hv : v < 256) :
    (volume v st).2 = [.masterVolume v]
    ∧ ((volume v st).1 = .ok () ↔ st = 0)
    ∧ ((volume v st).1 = .error .volumeRejected ↔ st ≠ 0) := by
  by_cases h : st = 0 <;> simp [volume, h]

/-- Witness for C10 at the value 255, above the documented 0..=127 range:
the exact byte is forwarded and the call succeeds on zero engine status. -/
theorem volume_forwards_unvalidated_witness :
    (255 : Nat) < 256 ∧ 127 < (255 : Nat)
    ∧ (volume 255 0).2 = [.masterVolume 255]
    ∧ (volume 255 0).1 = .ok () := by
  refine ⟨by decide, by decide, ?_, ?_⟩
  · exact (volume_forwards_unvalidated 255 0 (by decide)).1
  · exact (volume_forwards_unvalidated 255 0 (by decide)).2.1.mpr rfl

/-- Claim C4 (code_bug): `Midi::seek` takes a u32 but casts it to c_ushort,
so at the representable input 65536 the position forwarded to
`WildMidi_FastSeek` is 0, not the requested 65536 - contradicting the
function's own doc comment ("scanning to sample_pos samples from the
beginning"). -/
theorem seek_truncates_to_16_bits :
    seek 65536 = [.fastSeek 0]
    ∧ seekForwarded 65536 = 0
    ∧ (65536 : Nat) < 2 ^ 32
    ∧ seekForwarded 70000 = 4464 := by decide

/-- Claim C1 (corrected), counterexample: at the out-of-range rate 0,
`with_cfg` does invoke the engine's global initializer (the trace contains
the init call, whatever the engine then answers), and when the engine
accepts, the call even succeeds - so the layer neither fails with a
rate error nor avoids the engine call. -/
theorem with_cfg_rate_zero_reaches_engine :
    (with_cfg "/etc/wildmidi.cfg" 0 0).1 = .ok ()
    ∧ (with_cfg "/etc/wildmidi.cfg" 0 0).2 = [.init "/etc/wildmidi.cfg" 0 0]
    ∧ (with_cfg "/etc/wildmidi.cfg" 0 (-1)).1 = .error .initFailed
    ∧ (with_cfg "/etc/wildmidi.cfg" 0 (-1)).2 = [.init "/etc/wildmidi.cfg" 0 0]
    ∧ (0 : Nat) < 11025 :=
  ⟨rfl, rfl, rfl, rfl, by decide⟩

/-- Claim C1 (corrected), amended: `with_cfg` performs no rate validation of
its own.  For every rate representable as u16 (larger values cannot be
passed at all) and every NUL-free config string, it invokes the engine
initializer with exactly the given rate - no clamping or wrapping at this
layer - and returns `Ok` precisely when the engine reports zero status. -/
theorem with_cfg_delegates_rate_validation (cfg : String) (rate : Nat) (st : Int)
    (_hrate : rate < 2 ^ 16) (hcfg : hasNul cfg = false) :
    (with_cfg cfg rate st).2 = [.init cfg rate 0]
    ∧ ((with_cfg cfg rate st).1 = .ok () ↔ st = 0) := by
  by_cases h : st = 0 <;> simp [with_cfg, hcfg, h]

/-- Witness for the amended C1 at rate 0 and an accepting engine. -/
theorem with_cfg_delegates_rate_validation_witness :
    (0 : Nat) < 2 ^ 16 ∧ hasNul "/etc/wildmidi.cfg" = false
    ∧ (with_cfg "/etc/wildmidi.cfg" 0 0).2 = [.init "/etc/wildmidi.cfg" 0 0] := by
  refine ⟨by decide, by decide, ?_⟩
  exact (with_cfg_delegates_rate_validation "/etc/wildmidi.cfg" 0 0
    (by decide) (by decide)).1

/-- Claim C3 (corrected), counterexample: constructing a second Player while
the first is live is expressible in safe Rust against this API, and its
engine trace contains two init calls with no shutdown between them - the
layer neither prevents nor rejects the second construction. -/
theorem second_player_expressible :
    expressible progTwoPlayers = true
    ∧ secondInitWhileLive progTwoPlayers = true
    ∧ engineTrace progTwoPlayers =
        [.init "/etc/wildmidi.cfg" 44100 0, .init "/etc/wildmidi.cfg" 44100 0] := by
  decide

/-- Claim C3 (corrected), amended: the layer has no singleton guard.  In any
client state, even one with a live Player, constructing another Player is
permitted (only freshness of the new value's name is required) and performs
the engine init call again. -/
theorem newPlayer_unguarded (s : ClientState) (pid : Nat) (cfg : String) (rate : Nat)
    (_hlive : s.players ≠ []) (hfresh : s.players.contains pid = false) :
    pre s (.newPlayer pid cfg rate) = true
    ∧ effect (.newPlayer pid cfg rate) = [.init cfg rate 0] := by
  refine ⟨?_, rfl⟩
  show (! s.players.contains pid) = true
  rw [hfresh]
  rfl

/-- Witness for the amended C3: with Player 0 live, constructing Player 1 is
permitted and hits the engine initializer. -/
theorem newPlayer_unguarded_witness :
    (ClientState.mk [0] [] [] []).players ≠ []
    ∧ (ClientState.mk [0] [] [] []).players.contains 1 = false
    ∧ pre (ClientState.mk [0] [] [] []) (.newPlayer 1 "/etc/wildmidi.cfg" 44100) = true := by
  refine ⟨by decide, by decide, ?_⟩
  exact (newPlayer_unguarded (ClientState.mk [0] [] [] []) 1 "/etc/wildmidi.cfg" 44100
    (by decide) (by decide)).1

/-- Claim C2 (corrected), counterexample: dropping the Player before the
Track it opened is expressible in safe Rust (`Midi` carries no lifetime tie
to `Player`), and the resulting engine trace issues the shutdown while the
Track is still open, before its close. -/
theorem shutdown_before_close_expressible :
    expressible progDropPlayerFirst = true
    ∧ shutdownWhileOpen progDropPlayerFirst = true
    ∧ engineTrace progDropPlayerFirst =
        [.init "/etc/wildmidi.cfg" 44100 0, .openBuffer, .shutdown,
         .getOutput 4096, .close] := by
  decide

/-- Claim C2 (corrected), amended: releasing the Player is never
structurally blocked by open Tracks - in any state where the Player value is
live, dropping it is permitted regardless of the live Midis, and issues
exactly one engine shutdown at that point. -/
theorem dropPlayer_unconditional (s : ClientState) (pid : Nat)
    (_hm : s.midis ≠ []) (hp : s.players.contains pid = true) :
    pre s (.dropPlayer pid) = true ∧ effect (.dropPlayer pid) = [.shutdown] :=
  ⟨hp, rfl⟩

/-- Witness for the amended C2: with Midi 3 open, dropping Player 0 is
permitted. -/
theorem dropPlayer_unconditional_witness :
    (ClientState.mk [0] [] [3] []).midis ≠ []
    ∧ (ClientState.mk [0] [] [3] []).players.contains 0 = true
    ∧ pre (ClientState.mk [0] [] [3] []) (.dropPlayer 0) = true := by
  refine ⟨by decide, by decide, ?_⟩
  exact (dropPlayer_unconditional (ClientState.mk [0] [] [3] []) 0
    (by decide) (by decide)).1

/-- Claim C7 (corrected), counterexample: dropping the source buffer of a
buffer-loaded Track while the Track is still live - and rendering from it
afterwards - is expressible in safe Rust: `load` borrows the slice only for
the call, and the returned `Midi` holds no ownership of or lifetime tie to
the buffer. -/
theorem buffer_drop_before_track_close_expressible :
    expressible progDropBufFirst = true
    ∧ bufGoneWhileMidiLive progDropBufFirst = true := by decide

/-- Claim C7 (corrected), amended: the binding does not tie the buffer to
the Track.  In any state, a live buffer may be dropped even while a Midi
loaded from that very buffer is still live. -/
theorem dropBuf_while_track_live (s : ClientState) (bid mid : Nat)
    (_hassoc : s.midiBuf.contains (mid, bid) = true)
    (_hmid : s.midis.contains mid = true)
    (hbuf : s.buffers.contains bid = true) :
    pre s (.dropBuf bid) = true ∧ effect (.dropBuf bid) = [] :=
  ⟨hbuf, rfl⟩

/-- Length of the post-call buffer: the allocation fixes it at `len`. -/
theorem playVec_length (len : Nat) (out : List Nat) :
    (playVec len out).length = len := by
  simp [playVec, List.length_append, List.length_take, List.length_replicate]

/-- Claim C5 (confirmed): `play` always returns at most `len` bytes, and
whenever the engine reports an actual produced length (a nonnegative status
below the request), the result is trimmed to exactly the engine's bytes -
the reported length, with no trailing filler.  The side conditions say the
engine response is well formed (`out` holds the reported number of bytes)
and that `len` is a usize value. -/
theorem play_trims_to_reported (len : Nat) (st : Int) (out : List Nat) :
    (play len st out).length ≤ len
    ∧ (out.length = min st.toNat len → 0 ≤ st → st < (len : Int) → len ≤ usizeSize →
        play len st out = out ∧ (play len st out).length = st.toNat) := by
  constructor
  · by_cases h : intToUsize st < len
    · simp [play, h, List.length_take, playVec_length]
    · simp [play, h, playVec_length]
  · intro hwf hnn hlt hlen
    have h64 : (usizeSize : Int) = 18446744073709551616 := by norm_num [usizeSize]
    have hread : intToUsize st = st.toNat := by
      unfold intToUsize
      rw [h64]
      omega
    have htn : st.toNat < len := by omega
    have hout : out.length = st.toNat := by omega
    have htake : out.take len = out := List.take_of_length_le (by omega)
    have hplay : play len st out = out := by
      unfold play playVec
      rw [htake]
      simp only [hread]
      rw [if_pos htn, ← hout, List.take_left]
    exact ⟨hplay, by rw [hplay, hout]⟩

/-- Witness for C5: an 8-byte request answered with 3 bytes comes back as
exactly those 3 bytes. -/
theorem play_trims_to_reported_witness :
    ([10, 20, 30] : List Nat).length = min (Int.toNat 3) 8
    ∧ (0 : Int) ≤ 3 ∧ (3 : Int) < ((8 : Nat) : Int) ∧ (8 : Nat) ≤ usizeSize
    ∧ play 8 3 [10, 20, 30] = [10, 20, 30] := by
  refine ⟨by decide, by decide, by decide, by decide, ?_⟩
  exact ((play_trims_to_reported 8 3 [10, 20, 30]).2
    (by decide) (by decide) (by decide) (by decide)).1

/-- Claim C9 (confirmed): when the engine's read-output call reports a
negative status, the cast `read as usize` wraps it to a huge value, the
`read < len` shrink never fires, and `play` returns the untouched
zero-initialized allocation: exactly `len` zero bytes, indistinguishable
from a full successful read, with no short-read signal.  The side
conditions are c_int's lower bound, a well-formed engine response (no bytes
reported on error), and any allocation below 2^64 - 2^31 bytes. -/
theorem play_error_full_zero (len : Nat) (st : Int) (out : List Nat)
    (hwf : out.length = min st.toNat len)
    (hneg : st < 0) (hlo : -(2 ^ 31) ≤ st) (hlen : len ≤ usizeSize - 2 ^ 31) :
    play len st out = List.replicate len 0
    ∧ (play len st out).length = len := by
  have hout : out = [] := by
    have h0 : out.length = 0 := by omega
    exact List.eq_nil_of_length_eq_zero h0
  subst hout
  have h64 : (usizeSize : Int) = 18446744073709551616 := by norm_num [usizeSize]
  have hlen2 : len ≤ 18446744071562067968 := by
    have : usizeSize - 2 ^ 31 = 18446744071562067968 := by norm_num [usizeSize]
    omega
  have hlo2 : -(2147483648 : Int) ≤ st := by
    have : ((2 : Int) ^ 31) = 2147483648 := by norm_num
    omega
  have hread : ¬ intToUsize st < len := by
    unfold intToUsize
    rw [h64]
    omega
  have hplay : play len st [] = List.replicate len 0 := by
    unfold play
    rw [if_neg hread]
    simp [playVec]
  exact ⟨hplay, by rw [hplay, List.length_replicate]⟩

/-- Witness for C9: a 4-byte request answered with status -1 comes back as
4 zero bytes. -/
theorem play_error_full_zero_witness :
    ([] : List Nat).length = min (Int.toNat (-1)) 4
    ∧ (-1 : Int) < 0 ∧ -(2 ^ 31) ≤ (-1 : Int) ∧ (4 : Nat) ≤ usizeSize - 2 ^ 31
    ∧ play 4 (-1) [] = List.replicate 4 0 := by
  refine ⟨by decide, by decide, by decide, by decide, ?_⟩
  exact (play_error_full_zero 4 (-1) []
    (by decide) (by decide) (by decide) (by decide)).1

/-- Claim C6 (confirmed): `load_file` fails with the file-not-found error
and makes no engine call when the path does not exist; on an existing path
it makes exactly the engine open call, fails with the parse error iff the
engine returns a null handle, and returns a Track iff the handle is
non-null.  The hypothesis records that a path existing on the filesystem
cannot contain an interior NUL byte (the OS rejects such paths), so the
`CString::new` conversion on an existing path never fails. -/
theorem load_file_checks_then_engine (fs : String → Bool) (path : String) (ptr : Option Nat)
    (hpath : fs path = true → hasNul path = false) :
    (fs path = false → load_file fs path ptr = (.error .fileNotFound, []))
    ∧ (fs path = true →
        (load_file fs path ptr).2 = [.openPath path]
        ∧ ((load_file fs path ptr).1 = .error .parseFailed ↔ ptr = none)
        ∧ (∀ h, (load_file fs path ptr).1 = .ok h ↔ ptr = some h)) := by
  constructor
  · intro hf
    simp [load_file, hf]
  · intro ht
    have hn := hpath ht
    cases ptr <;> simp [load_file, ht, hn]

/-- Witness for C6: on a filesystem where `/song.mid` exists and an engine
returning handle 7, `load_file` returns that Track after one open call. -/
theorem load_file_checks_then_engine_witness :
    ((fun p => p == "/song.mid") "/song.mid" = true → hasNul "/song.mid" = false)
    ∧ (load_file (fun p => p == "/song.mid") "/song.mid" (some 7)).1 = .ok 7
    ∧ (load_file (fun p => p == "/song.mid") "/song.mid" (some 7)).2 =
        [.openPath "/song.mid"] := by
  have h := load_file_checks_then_engine (fun p => p == "/song.mid") "/song.mid"
    (some 7) (fun _ => by decide)
  refine ⟨fun _ => by decide, ?_, ?_⟩
  · exact ((h.2 (by decide)).2.2 7).mpr rfl
  · exact (h.2 (by decide)).1

/-- Witness for the amended C7: buffer 5 is droppable while Midi 3, loaded
from it, is live. -/
theorem dropBuf_while_track_live_witness :
    (ClientState.mk [0] [5] [3] [(3, 5)]).midiBuf.contains (3, 5) = true
    ∧ (ClientState.mk [0] [5] [3] [(3, 5)]).midis.contains 3 = true
    ∧ (ClientState.mk [0] [5] [3] [(3, 5)]).buffers.contains 5 = true
    ∧ pre (ClientState.mk [0] [5] [3] [(3, 5)]) (.dropBuf 5) = true := by
  refine ⟨by decide, by decide, by decide, ?_⟩
  exact (dropBuf_while_track_live (ClientState.mk [0] [5] [3] [(3, 5)]) 5 3
    (by decide) (by decide) (by decide)).1

end Wildmidi
